import Mathlib

/-!
Shallow embedding of `src/lib/iris_ncobj.py` (the `iris_ncobj_wrapper`
repository): mimic/proxy wrappers that make an in-memory `ncobj.Group`
graph look like a `netCDF4.Dataset`.

The wrapped `ncobj` object model (an external library) is embedded just
deeply enough for the adapter code: nodes carry `name`, `attributes`
(named, with a value), dimensions carry `length`/`unlimited`, variables
carry `data` (array-like metadata), groups carry `dimensions`/
`variables`/`groups` collections in declaration order (lists).

Python runtime errors that the adapter can raise (TypeError from a bad
constructor call, AttributeError from `getncattr`, NameError from an
unbound identifier) are represented explicitly, and `close`'s file
side effects are represented as an event trace.
-/

/-- Value stored in an ncobj attribute. -/
inductive NcValue where
  | vstr : String → NcValue
  | vint : Int → NcValue
  deriving DecidableEq, Repr

/-- An ncobj attribute: a named value (`attributes` elements expose `.name`
and `.value`). -/
structure NcAttribute where
  name : String
  value : NcValue
  deriving DecidableEq, Repr

/-- An ncobj dimension: `name`, declared `length`, `unlimited` flag. -/
structure NcDimension where
  name : String
  length : Nat
  unlimited : Bool
  deriving DecidableEq, Repr

/-- Array-like object behind `variable.data`: exposes `.dtype`, `.shape`,
`.ndim`, `.size`.  Its own slicing semantics are external, so they are kept
symbolic (see `GetItemResult.delegatedSlice`). -/
structure NcArray where
  dtypeName : String
  shape : List Nat
  ndim : Nat
  size : Nat
  deriving DecidableEq, Repr

/-- An ncobj variable: `name`, referenced `dimensions`, `attributes`,
`data`. -/
structure NcVariable where
  name : String
  dimensions : List NcDimension
  attributes : List NcAttribute
  data : NcArray
  deriving DecidableEq, Repr

/-- An ncobj group: `name`, `attributes`, and the `dimensions` /
`variables` / `groups` child collections in declaration order. -/
inductive NcGroup where
  | mk : String → List NcAttribute → List NcDimension → List NcVariable →
      List NcGroup → NcGroup

/-- `group.name`. -/
def NcGroup.name : NcGroup → String
  | .mk n _ _ _ _ => n

/-- `group.attributes`. -/
def NcGroup.attributes : NcGroup → List NcAttribute
  | .mk _ a _ _ _ => a

/-- `group.dimensions`. -/
def NcGroup.dimensions : NcGroup → List NcDimension
  | .mk _ _ d _ _ => d

/-- `group.variables`. -/
def NcGroup.variables : NcGroup → List NcVariable
  | .mk _ _ _ v _ => v

/-- `group.groups`. -/
def NcGroup.groups : NcGroup → List NcGroup
  | .mk _ _ _ _ g => g

mutual

/-- Structural equality on the nested `NcGroup` type (the `==` that
`Nc4ComponentMimic.__eq__` delegates to on wrapped groups). -/
def NcGroup.beq : NcGroup → NcGroup → Bool
  | .mk n1 a1 d1 v1 g1, .mk n2 a2 d2 v2 g2 =>
    n1 == n2 && a1 == a2 && d1 == d2 && v1 == v2 && NcGroup.beqList g1 g2

def NcGroup.beqList : List NcGroup → List NcGroup → Bool
  | [], [] => true
  | x :: xs, y :: ys => NcGroup.beq x y && NcGroup.beqList xs ys
  | _, _ => false

end

/-- Python runtime errors the adapter can raise. -/
inductive PyError where
  | typeError
  | attributeError
  | nameError
  deriving DecidableEq, Repr

/-- `_name_as_string(obj_or_string)`: here applied to attribute objects,
which always expose `.name`. -/
def name_as_string (a : NcAttribute) : String := a.name

/-- `attributes.names()` on an ncobj attribute container. -/
def attrNames (attrs : List NcAttribute) : List String :=
  attrs.map NcAttribute.name

/-- `attributes[name].value`: lookup by name in the attribute container
(first match). -/
def attributesLookup (attrs : List NcAttribute) (nm : String) : Option NcValue :=
  match attrs with
  | [] => Option.none
  | a :: rest => if a.name = nm then some a.value else attributesLookup rest nm

/-- `Nc4ComponentAttrsMimic.ncattrs(self)`: `map(_name_as_string,
self.ncobj.attributes)`. -/
def Nc4ComponentAttrsMimic.ncattrs (attrs : List NcAttribute) : List String :=
  attrs.map name_as_string

/-- `Nc4ComponentAttrsMimic.getncattr(self, attr_name)`: if the name is in
`self.ncobj.attributes.names()` return `self.ncobj.attributes[name].value`,
else raise `AttributeError()`. -/
def Nc4ComponentAttrsMimic.getncattr (attrs : List NcAttribute) (nm : String) :
    Except PyError NcValue :=
  if nm ∈ attrNames attrs then
    match attributesLookup attrs nm with
    | some v => .ok v
    | Option.none => .error .attributeError
  else .error .attributeError

/-- `Nc4ComponentAttrsMimic.__getattr__(self, attr_name)`: unknown property
reads fall back to `self.getncattr(attr_name)`. -/
def Nc4ComponentAttrsMimic.getattrFallback (attrs : List NcAttribute)
    (nm : String) : Except PyError NcValue :=
  Nc4ComponentAttrsMimic.getncattr attrs nm

/-- `DimensionMimic`: wraps an `NcDimension`; `_parent_group_ncobj` holds the
enclosing group mimic, represented here by that mimic's wrapped group. -/
structure DimensionMimic where
  ncobj : NcDimension
  parentGroupNcobj : Option NcGroup

/-- `DimensionMimic.isunlimited(self)`:
`self.ncobj.unlimited or not self.ncobj.length`. -/
def DimensionMimic.isunlimited (d : DimensionMimic) : Bool :=
  d.ncobj.unlimited || d.ncobj.length == 0

/-- `DimensionMimic.size`: `0 if self.isunlimited() else self.ncobj.length`. -/
def DimensionMimic.size (d : DimensionMimic) : Nat :=
  if d.isunlimited then 0 else d.ncobj.length

/-- `DimensionMimic.__len__`. -/
def DimensionMimic.len (d : DimensionMimic) : Nat := d.size

/-- `VariableMimic`: wraps an `NcVariable`, with the parent-group
back-reference represented by the parent mimic's wrapped group. -/
structure VariableMimic where
  ncobj : NcVariable
  parentGroupNcobj : Option NcGroup

/-- `VariableMimic.ndim`: `self.ncobj.data.ndim`. -/
def VariableMimic.ndim (v : VariableMimic) : Nat := v.ncobj.data.ndim

/-- `VariableMimic.shape`: `self.ncobj.data.shape`. -/
def VariableMimic.shape (v : VariableMimic) : List Nat := v.ncobj.data.shape

/-- `VariableMimic.size`: `self.ncobj.data.size`. -/
def VariableMimic.size (v : VariableMimic) : Nat := v.ncobj.data.size

/-- `VariableMimic.dtype`: `self.ncobj.data.dtype`. -/
def VariableMimic.dtype (v : VariableMimic) : String := v.ncobj.data.dtypeName

/-- `VariableMimic.dimensions`: `tuple(map(_name_as_string,
self.ncobj.dimensions))`. -/
def VariableMimic.dimensionNames (v : VariableMimic) : List String :=
  v.ncobj.dimensions.map NcDimension.name

/-- Result of `VariableMimic.__getitem__`: either the wrapped data object
itself (`return self.ncobj.data`), or the external array's own indexing
applied to the given keys (`return self.ncobj.data[keys]`), kept symbolic
because the array's slicing semantics live outside this module. -/
inductive GetItemResult (κ : Type) where
  | wholeData : NcArray → GetItemResult κ
  | delegatedSlice : NcArray → κ → GetItemResult κ
  deriving DecidableEq, Repr

/-- `VariableMimic.__getitem__(self, keys)`: if `self.ndim == 0` return
`self.ncobj.data`, else return `self.ncobj.data[keys]`. -/
def VariableMimic.getitem {κ : Type} (v : VariableMimic) (keys : κ) :
    GetItemResult κ :=
  if v.ndim = 0 then .wholeData v.ncobj.data
  else .delegatedSlice v.ncobj.data keys

/-- One assignment `d[k] = v` on an insertion-ordered dict represented as a
key-value list: an existing key keeps its position and gets the new value, a
new key is appended. -/
def odAssign {α : Type} (ps : List (String × α)) (k : String) (v : α) :
    List (String × α) :=
  match ps with
  | [] => [(k, v)]
  | (k', v') :: rest =>
    if k' = k then (k, v) :: rest else (k', v') :: odAssign rest k v

/-- `OrderedDict([(k, v), ...])`: successive assignments from the pair
list into an initially empty dict. -/
def orderedDict {α : Type} (ps : List (String × α)) : List (String × α) :=
  ps.foldl (fun acc kv => odAssign acc kv.1 kv.2) []

/-- `GroupMimic`: wraps an `NcGroup`; holds the parent back-reference (the
enclosing mimic, represented by its wrapped group) and the three ordered
name-to-proxy mappings built by `GroupMimic.__init__`. -/
inductive GroupMimic where
  | mk : NcGroup → Option NcGroup → List (String × DimensionMimic) →
      List (String × VariableMimic) → List (String × GroupMimic) → GroupMimic

/-- `group_mimic.ncobj`. -/
def GroupMimic.ncobj : GroupMimic → NcGroup
  | .mk o _ _ _ _ => o

/-- `group_mimic._parent_group_ncobj` (the enclosing group mimic,
represented by its wrapped group). -/
def GroupMimic.parentGroupNcobj : GroupMimic → Option NcGroup
  | .mk _ p _ _ _ => p

/-- `group_mimic.dimensions` (the `OrderedDict` built by `__init__`). -/
def GroupMimic.dimensions : GroupMimic → List (String × DimensionMimic)
  | .mk _ _ d _ _ => d

/-- `group_mimic.variables` (the `OrderedDict` built by `__init__`). -/
def GroupMimic.variables : GroupMimic → List (String × VariableMimic)
  | .mk _ _ _ v _ => v

/-- `group_mimic.groups` (the `OrderedDict` built by `__init__`). -/
def GroupMimic.groups : GroupMimic → List (String × GroupMimic)
  | .mk _ _ _ _ g => g

mutual

/-- `GroupMimic.__init__(self, nco_component, parent_grp)`: store the
wrapped group and parent, then eagerly build the three ordered
name-to-proxy mappings, each child mimic receiving `parent_grp=self`
(this mimic, represented by its wrapped group). -/
def GroupMimic.build : NcGroup → Option NcGroup → GroupMimic
  | .mk n atts ds vs gs, parent =>
    .mk (.mk n atts ds vs gs) parent
      (orderedDict (ds.map fun d => (d.name, ⟨d, some (.mk n atts ds vs gs)⟩)))
      (orderedDict (vs.map fun v => (v.name, ⟨v, some (.mk n atts ds vs gs)⟩)))
      (orderedDict (GroupMimic.buildChildren gs (some (.mk n atts ds vs gs))))

/-- The pair list `[(grp.name, GroupMimic(grp, parent_grp=self)) for grp in
self.ncobj.groups]`. -/
def GroupMimic.buildChildren : List NcGroup → Option NcGroup →
    List (String × GroupMimic)
  | [], _ => []
  | g :: rest, p => (g.name, GroupMimic.build g p) :: GroupMimic.buildChildren rest p

end

/-- A Python value as it may appear in the `file_path` argument position
(the readable factory passes the ncobj group there positionally). -/
inductive PyVal where
  | pynone : PyVal
  | pystr : String → PyVal
  | pygroup : NcGroup → PyVal

/-- `Nc4DatasetMimic`: the top-level dataset mimic.  Its `__init__` calls
`super(GroupMimic, self).__init__(*args, **kwargs)`, which skips
`GroupMimic.__init__` entirely, so a dataset mimic has NO
`dimensions`/`variables`/`groups` mappings — only the base-component
fields plus the file bookkeeping. -/
structure Nc4DatasetMimic where
  ncobj : NcGroup
  parentGroupNcobj : Option NcGroup
  filepath : PyVal
  fileMode : String

/-- `Nc4DatasetMimic.__init__(self, file_path=None, file_mode='r', *args,
**kwargs)`: forwards `*args` to `Nc4ComponentMimic.__init__(nco_component,
parent_grp=None)` via `super(GroupMimic, self)`.  When no positional
component was forwarded (`ncoArg = none`) the base initializer is missing
its required `nco_component` argument and Python raises `TypeError`;
otherwise the component and the file bookkeeping are stored (and the
`GroupMimic.__init__` child-mapping construction is skipped). -/
def Nc4DatasetMimic.init (filePath : PyVal) (fileMode : String)
    (ncoArg : Option NcGroup) : Except PyError Nc4DatasetMimic :=
  match ncoArg with
  | Option.none => .error .typeError
  | some nco => .ok ⟨nco, Option.none, filePath, fileMode⟩

/-- `fake_readable_nc4python_dataset(ncobj_group)`: calls
`Nc4DatasetMimic(ncobj_group)` — the group binds to the `file_path`
parameter and no positional component reaches the base initializer. -/
def fake_readable_nc4python_dataset (ncobj_group : NcGroup) :
    Except PyError Nc4DatasetMimic :=
  Nc4DatasetMimic.init (PyVal.pygroup ncobj_group) "r" Option.none

/-- `fake_writeable_nc4python_dataset(file_path, file_mode='r')`: calls
`Nc4DatasetMimic(file_path=file_path, file_mode=file_mode)` — no
positional component reaches the base initializer. -/
def fake_writeable_nc4python_dataset (file_path : String) (file_mode : String) :
    Except PyError Nc4DatasetMimic :=
  Nc4DatasetMimic.init (PyVal.pystr file_path) file_mode Option.none

/-- File-system side effects that `close` could perform, as trace events. -/
inductive IOEvent where
  | openFile : String → String → IOEvent
  | encodeWrite : IOEvent
  | closeFile : IOEvent
  deriving DecidableEq, Repr

/-- `Nc4DatasetMimic.close(self)`, translated faithfully:
if `'w' in self._file_mode`, evaluate `self.file_path` — there is no such
instance or class attribute (the stored field is `_filepath`), so
`__getattr__` forwards to `getncattr('file_path')`, which raises
`AttributeError` unless the wrapped group happens to carry an attribute
named `file_path`; likewise `self.file_mode`; then the identifier
`kwargs`, which is unbound in `close`'s scope, raises `NameError`.  All
three precede the `nc.Dataset(...)` call, so no file is ever opened and
the encoder is never invoked.  Returns (result, event trace, post-state). -/
def Nc4DatasetMimic.close (d : Nc4DatasetMimic) :
    Except PyError Unit × List IOEvent × Nc4DatasetMimic :=
  if d.fileMode.toList.contains 'w' then
    match attributesLookup d.ncobj.attributes "file_path" with
    | Option.none => (.error .attributeError, [], d)
    | some _ =>
      match attributesLookup d.ncobj.attributes "file_mode" with
      | Option.none => (.error .attributeError, [], d)
      | some _ => (.error .nameError, [], d)
  else (.ok (), [], d)

/-- `Nc4ComponentMimic`: the abstract base, wrapping any component type. -/
structure Nc4ComponentMimic (α : Type) where
  ncobj : α
  parentGroupNcobj : Option NcGroup

/-- `Nc4ComponentMimic.__eq__(self, other)`: `self.ncobj == other.ncobj`. -/
def Nc4ComponentMimic.eqMimic {α : Type} [BEq α]
    (a b : Nc4ComponentMimic α) : Bool :=
  a.ncobj == b.ncobj

/-- `Nc4ComponentMimic.__ne__(self, other)`: `not self == other`. -/
def Nc4ComponentMimic.neMimic {α : Type} [BEq α]
    (a b : Nc4ComponentMimic α) : Bool :=
  !(Nc4ComponentMimic.eqMimic a b)

/-- The inherited `__eq__` on dataset mimics: `self.ncobj == other.ncobj`
(wrapped-group equality only). -/
def Nc4DatasetMimic.eqMimic (a b : Nc4DatasetMimic) : Bool :=
  NcGroup.beq a.ncobj b.ncobj

/-- The inherited `__ne__` on dataset mimics. -/
def Nc4DatasetMimic.neMimic (a b : Nc4DatasetMimic) : Bool :=
  !(Nc4DatasetMimic.eqMimic a b)

/-- Assigning a fresh key into an insertion-ordered dict appends it. -/
lemma odAssign_of_notMem {α : Type} (ps : List (String × α)) (k : String)
    (v : α) (h : k ∉ ps.map Prod.fst) : odAssign ps k v = ps ++ [(k, v)] := by
  induction ps with
  | nil => rfl
  | cons p rest ih =>
    simp only [List.map_cons, List.mem_cons] at h
    push_neg at h
    simp only [odAssign]
    rw [if_neg (Ne.symm h.1), ih h.2]
    rfl

/-- Folding assignments of pairs with fresh, pairwise-distinct keys onto an
ordered dict appends them in order. -/
lemma orderedDict_foldl_of_nodup {α : Type} (ps : List (String × α)) :
    ∀ acc : List (String × α), ((acc ++ ps).map Prod.fst).Nodup →
      ps.foldl (fun a kv => odAssign a kv.1 kv.2) acc = acc ++ ps := by
  induction ps with
  | nil => intro acc _; simp
  | cons kv rest ih =>
    intro acc h
    have h' := h
    rw [List.map_append] at h'
    rcases List.nodup_append.mp h' with ⟨_, _, hdisj⟩
    have hk : kv.1 ∉ acc.map Prod.fst := fun hmem => hdisj hmem (by simp)
    rw [List.foldl_cons, odAssign_of_notMem acc kv.1 kv.2 hk, ih (acc ++ [kv])
      (by simpa [List.append_assoc] using h)]
    simp

/-- Building an `OrderedDict` from a pair list with pairwise-distinct keys
keeps exactly that pair list. -/
lemma orderedDict_of_nodup {α : Type} (ps : List (String × α))
    (h : (ps.map Prod.fst).Nodup) : orderedDict ps = ps := by
  simpa [orderedDict] using orderedDict_foldl_of_nodup ps [] (by simpa using h)

/-- The subgroup pair list is the name-tagged map of `GroupMimic.build`. -/
lemma buildChildren_eq_map (gs : List NcGroup) (p : Option NcGroup) :
    GroupMimic.buildChildren gs p =
      gs.map fun g => (g.name, GroupMimic.build g p) := by
  induction gs with
  | nil => rfl
  | cons g rest ih => simp [GroupMimic.buildChildren, ih]

/-- `GroupMimic.build` stores the wrapped group unchanged. -/
lemma build_ncobj (g : NcGroup) (p : Option NcGroup) :
    (GroupMimic.build g p).ncobj = g := by
  cases g
  simp [GroupMimic.build, GroupMimic.ncobj]

/-- `GroupMimic.build` stores the given parent back-reference unchanged. -/
lemma build_parentGroupNcobj (g : NcGroup) (p : Option NcGroup) :
    (GroupMimic.build g p).parentGroupNcobj = p := by
  cases g
  simp [GroupMimic.build, GroupMimic.parentGroupNcobj]

/-- C3: for every wrapped group (with the spec's name-uniqueness invariant
on each collection), `GroupMimic.__init__` builds dimension/variable/
subgroup mappings whose key lists are exactly the wrapped collections'
name lists in declaration order, and every child proxy holds a
back-reference to the enclosing group proxy (represented by its wrapped
group). -/
theorem groupMimic_mappings_exact_names_order_and_parents
    (g : NcGroup) (p : Option NcGroup)
    (hd : (g.dimensions.map NcDimension.name).Nodup)
    (hv : (g.variables.map NcVariable.name).Nodup)
    (hg : (g.groups.map NcGroup.name).Nodup) :
    ((GroupMimic.build g p).dimensions.map Prod.fst =
      g.dimensions.map NcDimension.name) ∧
    ((GroupMimic.build g p).variables.map Prod.fst =
      g.variables.map NcVariable.name) ∧
    ((GroupMimic.build g p).groups.map Prod.fst =
      g.groups.map NcGroup.name) ∧
    (∀ e ∈ (GroupMimic.build g p).dimensions,
      e.2.parentGroupNcobj = some g) ∧
    (∀ e ∈ (GroupMimic.build g p).variables,
      e.2.parentGroupNcobj = some g) ∧
    (∀ e ∈ (GroupMimic.build g p).groups,
      e.2.parentGroupNcobj = some g) := by
  obtain ⟨n, atts, ds, vs, gs⟩ := g
  simp only [NcGroup.dimensions, NcGroup.variables, NcGroup.groups] at hd hv hg
  have hdm : orderedDict (ds.map fun d =>
      ((d.name : String), (⟨d, some (NcGroup.mk n atts ds vs gs)⟩ : DimensionMimic))) =
      ds.map fun d => (d.name, ⟨d, some (NcGroup.mk n atts ds vs gs)⟩) :=
    orderedDict_of_nodup _ (by simpa [Function.comp] using hd)
  have hvm : orderedDict (vs.map fun v =>
      ((v.name : String), (⟨v, some (NcGroup.mk n atts ds vs gs)⟩ : VariableMimic))) =
      vs.map fun v => (v.name, ⟨v, some (NcGroup.mk n atts ds vs gs)⟩) :=
    orderedDict_of_nodup _ (by simpa [Function.comp] using hv)
  have hgm : orderedDict (GroupMimic.buildChildren gs
      (some (NcGroup.mk n atts ds vs gs))) =
      gs.map fun sg => (sg.name, GroupMimic.build sg
        (some (NcGroup.mk n atts ds vs gs))) := by
    rw [buildChildren_eq_map]
    exact orderedDict_of_nodup _ (by simpa [Function.comp] using hg)
  refine ⟨?_, ?_, ?_, ?_, ?_, ?_⟩
  · simp only [GroupMimic.build, GroupMimic.dimensions, hdm, List.map_map]
    rfl
  · simp only [GroupMimic.build, GroupMimic.variables, hvm, List.map_map]
    rfl
  · simp only [GroupMimic.build, GroupMimic.groups, hgm, List.map_map]
    rfl
  · intro e he
    simp only [GroupMimic.build, GroupMimic.dimensions, hdm, List.mem_map] at he
    obtain ⟨d, _, rfl⟩ := he
    rfl
  · intro e he
    simp only [GroupMimic.build, GroupMimic.variables, hvm, List.mem_map] at he
    obtain ⟨v, _, rfl⟩ := he
    rfl
  · intro e he
    simp only [GroupMimic.build, GroupMimic.groups, hgm, List.mem_map] at he
    obtain ⟨sg, _, rfl⟩ := he
    exact build_parentGroupNcobj _ _

/-- `getncattr` invoked on a group mimic (reads `self.ncobj.attributes`). -/
def GroupMimic.getncattrM (gm : GroupMimic) (nm : String) :
    Except PyError NcValue :=
  Nc4ComponentAttrsMimic.getncattr gm.ncobj.attributes nm

/-- `__getattr__` fallback invoked on a group mimic. -/
def GroupMimic.getattrFallbackM (gm : GroupMimic) (nm : String) :
    Except PyError NcValue :=
  Nc4ComponentAttrsMimic.getattrFallback gm.ncobj.attributes nm

/-- A node's attribute names contain the name of each of its attributes. -/
lemma mem_attrNames {attrs : List NcAttribute} {a : NcAttribute}
    (ha : a ∈ attrs) : a.name ∈ attrNames attrs :=
  List.mem_map_of_mem NcAttribute.name ha

/-- With unique attribute names, container lookup of a stored attribute's
name finds exactly its stored value. -/
lemma attributesLookup_of_mem {attrs : List NcAttribute} {a : NcAttribute}
    (ha : a ∈ attrs) (hnd : (attrNames attrs).Nodup) :
    attributesLookup attrs a.name = some a.value := by
  induction attrs with
  | nil => cases ha
  | cons b rest ih =>
    simp only [attrNames, List.map_cons, List.nodup_cons] at hnd
    rcases List.mem_cons.mp ha with heq | hmem
    · subst heq
      simp [attributesLookup]
    · have hb : b.name ≠ a.name := fun hbn => hnd.1 (hbn ▸ mem_attrNames hmem)
      simp only [attributesLookup]
      rw [if_neg hb]
      exact ih hmem hnd.2

/-- C4: a dimension mimic's `size` is 0 exactly when the wrapped dimension
is explicitly unlimited or has zero declared length, and equals the
declared length otherwise; `isunlimited()` is true exactly in the former
case. -/
theorem dimension_size_and_isunlimited_spec (d : DimensionMimic) :
    (d.isunlimited = true ↔
      (d.ncobj.unlimited = true ∨ d.ncobj.length = 0)) ∧
    d.size = (if d.ncobj.unlimited = true ∨ d.ncobj.length = 0 then 0
      else d.ncobj.length) := by
  have hiff : d.isunlimited = true ↔
      (d.ncobj.unlimited = true ∨ d.ncobj.length = 0) := by
    simp [DimensionMimic.isunlimited]
  refine ⟨hiff, ?_⟩
  by_cases h : d.ncobj.unlimited = true ∨ d.ncobj.length = 0
  · rw [if_pos h]
    unfold DimensionMimic.size
    rw [if_pos (hiff.mpr h)]
  · rw [if_neg h]
    unfold DimensionMimic.size
    rw [if_neg fun hc => h (hiff.mp hc)]

/-- C5: indexed read on a zero-dimensional variable mimic returns the
wrapped data object itself for every index argument (so is independent of
the argument); on nonzero dimensionality it delegates the given keys to the
wrapped array's own indexing. -/
theorem variable_getitem_scalar_or_delegates {κ : Type} (v : VariableMimic)
    (k k' : κ) :
    (v.ndim = 0 → v.getitem k = GetItemResult.wholeData v.ncobj.data ∧
      v.getitem k = v.getitem k') ∧
    (v.ndim ≠ 0 → v.getitem k = GetItemResult.delegatedSlice v.ncobj.data k) := by
  constructor
  · intro h
    constructor <;> simp [VariableMimic.getitem, h]
  · intro h
    simp [VariableMimic.getitem, h]

/-- A 0-dimensional sample variable (scalar temperature). -/
def scalarVarSample : VariableMimic :=
  ⟨⟨"t", [], [], ⟨"float64", [], 0, 1⟩⟩, Option.none⟩

/-- A 2-dimensional sample variable. -/
def gridVarSample : VariableMimic :=
  ⟨⟨"u", [⟨"x", 3, false⟩, ⟨"y", 4, false⟩], [], ⟨"float32", [3, 4], 2, 12⟩⟩,
    Option.none⟩

/-- Witness for C5 at concrete variables and integer keys. -/
theorem variable_getitem_witness :
    (scalarVarSample.ndim = 0 ∧
      scalarVarSample.getitem (5 : Nat) =
        GetItemResult.wholeData scalarVarSample.ncobj.data ∧
      scalarVarSample.getitem (5 : Nat) = scalarVarSample.getitem 7) ∧
    (gridVarSample.ndim ≠ 0 ∧
      gridVarSample.getitem (5 : Nat) =
        GetItemResult.delegatedSlice gridVarSample.ncobj.data 5) :=
  ⟨⟨rfl, (variable_getitem_scalar_or_delegates scalarVarSample 5 7).1 rfl⟩,
    ⟨by decide,
      (variable_getitem_scalar_or_delegates gridVarSample 5 7).2 (by decide)⟩⟩

/-- C6: the group proxy is constructed successfully for every wrapped group
(wrapping it unchanged, attributes never inspected at construction), and a
name absent from the wrapped node's attributes makes `getncattr` — and the
unknown-property `__getattr__` fallback — fail with `AttributeError` at
lookup time. -/
theorem missing_attribute_fails_at_lookup_not_construction
    (g : NcGroup) (p : Option NcGroup) (nm : String)
    (h : nm ∉ attrNames g.attributes) :
    (GroupMimic.build g p).ncobj = g ∧
    GroupMimic.getncattrM (GroupMimic.build g p) nm =
      Except.error PyError.attributeError ∧
    GroupMimic.getattrFallbackM (GroupMimic.build g p) nm =
      Except.error PyError.attributeError := by
  refine ⟨build_ncobj g p, ?_, ?_⟩ <;>
    simp [GroupMimic.getncattrM, GroupMimic.getattrFallbackM,
      Nc4ComponentAttrsMimic.getncattr, Nc4ComponentAttrsMimic.getattrFallback,
      build_ncobj, h]

/-- Sample group carrying one attribute, for the C6 witness. -/
def attrGroupSample : NcGroup :=
  .mk "g" [⟨"units", NcValue.vstr "m"⟩] [] [] []

/-- Witness for C6: looking up the absent name `history` on the proxy of
`attrGroupSample` fails with `AttributeError`, though construction
succeeded. -/
theorem missing_attribute_witness :
    "history" ∉ attrNames attrGroupSample.attributes ∧
    ((GroupMimic.build attrGroupSample Option.none).ncobj = attrGroupSample ∧
      GroupMimic.getncattrM (GroupMimic.build attrGroupSample Option.none)
        "history" = Except.error PyError.attributeError ∧
      GroupMimic.getattrFallbackM (GroupMimic.build attrGroupSample Option.none)
        "history" = Except.error PyError.attributeError) :=
  ⟨by decide,
    missing_attribute_fails_at_lookup_not_construction attrGroupSample
      Option.none "history" (by decide)⟩

/-- C7: for every attribute present on a wrapped node (names unique, per
the spec's uniqueness invariant), `getncattr` returns exactly the stored
value. -/
theorem getncattr_roundtrip_present_attribute (attrs : List NcAttribute)
    (a : NcAttribute) (ha : a ∈ attrs) (hnd : (attrNames attrs).Nodup) :
    Nc4ComponentAttrsMimic.getncattr attrs a.name = Except.ok a.value := by
  unfold Nc4ComponentAttrsMimic.getncattr
  rw [if_pos (mem_attrNames ha), attributesLookup_of_mem ha hnd]

/-- Sample attribute list for the C7 witness. -/
def attrsSample : List NcAttribute :=
  [⟨"units", NcValue.vstr "m"⟩, ⟨"scale", NcValue.vint 2⟩]

/-- Witness for C7 at a concrete stored attribute. -/
theorem getncattr_roundtrip_witness :
    (⟨"scale", NcValue.vint 2⟩ : NcAttribute) ∈ attrsSample ∧
    (attrNames attrsSample).Nodup ∧
    Nc4ComponentAttrsMimic.getncattr attrsSample "scale" =
      Except.ok (NcValue.vint 2) :=
  ⟨by decide, by decide,
    getncattr_roundtrip_present_attribute attrsSample ⟨"scale", NcValue.vint 2⟩
      (by decide) (by decide)⟩

/-- Sample dimension for the C3 witness group. -/
def dimSample : NcDimension := ⟨"x", 4, false⟩

/-- Sample variable for the C3 witness group. -/
def varSample : NcVariable :=
  ⟨"v", [⟨"x", 4, false⟩], [], ⟨"float64", [4], 1, 4⟩⟩

/-- Sample subgroup for the C3 witness group. -/
def subgroupSample : NcGroup := .mk "sub" [] [] [] []

/-- Sample group with one dimension, one variable and one subgroup. -/
def groupSample : NcGroup :=
  .mk "root" [] [dimSample] [varSample] [subgroupSample]

/-- Witness for C3 on `groupSample`: key lists match the collection name
lists, and the subgroup child proxy (which the theorem shows to be a member
of the `groups` mapping) carries the enclosing proxy as parent. -/
theorem groupMimic_mappings_witness :
    ((groupSample.dimensions.map NcDimension.name).Nodup ∧
      (groupSample.variables.map NcVariable.name).Nodup ∧
      (groupSample.groups.map NcGroup.name).Nodup) ∧
    ((GroupMimic.build groupSample Option.none).dimensions.map Prod.fst =
      groupSample.dimensions.map NcDimension.name) ∧
    ((GroupMimic.build groupSample Option.none).variables.map Prod.fst =
      groupSample.variables.map NcVariable.name) ∧
    ((GroupMimic.build groupSample Option.none).groups.map Prod.fst =
      groupSample.groups.map NcGroup.name) ∧
    (GroupMimic.build subgroupSample (some groupSample)).parentGroupNcobj =
      some groupSample :=
  have hthm := groupMimic_mappings_exact_names_order_and_parents groupSample
    Option.none (by decide) (by decide) (by decide)
  have hmem : ("sub", GroupMimic.build subgroupSample (some groupSample)) ∈
      (GroupMimic.build groupSample Option.none).groups := by
    simp [groupSample, subgroupSample, dimSample, varSample, GroupMimic.build,
      GroupMimic.groups, GroupMimic.buildChildren, orderedDict, odAssign,
      NcGroup.name]
  ⟨⟨by decide, by decide, by decide⟩, hthm.1, hthm.2.1, hthm.2.2.1,
    hthm.2.2.2.2.2 _ hmem⟩

/-- C1: both public factory functions fail for every input: neither call
forwards the wrapped group to the base component initializer (it binds to
the `file_path` parameter in the readable factory and is absent in the
writeable one), so Python raises `TypeError` — no dataset proxy with child
mappings is ever produced (and `Nc4DatasetMimic.__init__` bypasses
`GroupMimic.__init__`'s child-mapping construction anyway). -/
theorem factory_construction_always_raises_typeError :
    (∀ g : NcGroup,
      fake_readable_nc4python_dataset g = Except.error PyError.typeError) ∧
    (∀ pth m : String,
      fake_writeable_nc4python_dataset pth m =
        Except.error PyError.typeError) :=
  ⟨fun _ => rfl, fun _ _ => rfl⟩

/-- C2: a write-mode `close()` never succeeds, performs no file event (no
open, no encoder invocation) and leaves the proxy unchanged: evaluation of
`self.file_path` / `self.file_mode` / `kwargs` raises before
`nc.Dataset(...)` is reached. -/
theorem write_close_fails_before_open_or_encode (d : Nc4DatasetMimic)
    (h : d.fileMode.toList.contains 'w' = true) :
    d.close.1 ≠ Except.ok () ∧ d.close.2.1 = [] ∧ d.close.2.2 = d := by
  have h' : 'w' ∈ d.fileMode.data := by simpa using h
  rcases hfp : attributesLookup d.ncobj.attributes "file_path" with _ | v
  · refine ⟨?_, ?_, ?_⟩ <;> simp [Nc4DatasetMimic.close, h', hfp]
  · rcases hfm : attributesLookup d.ncobj.attributes "file_mode" with _ | w
    · refine ⟨?_, ?_, ?_⟩ <;> simp [Nc4DatasetMimic.close, h', hfp, hfm]
    · refine ⟨?_, ?_, ?_⟩ <;> simp [Nc4DatasetMimic.close, h', hfp, hfm]

/-- A write-mode dataset mimic over an attribute-less group (obtainable
only by direct construction, since the factories raise). -/
def writeDatasetSample : Nc4DatasetMimic :=
  ⟨.mk "g" [] [] [] [], Option.none, PyVal.pystr "out.nc", "w"⟩

/-- Witness for C2 at a concrete write-mode dataset mimic. -/
theorem write_close_fails_witness :
    "w".toList.contains 'w' = true ∧
    (writeDatasetSample.close.1 ≠ Except.ok () ∧
      writeDatasetSample.close.2.1 = [] ∧
      writeDatasetSample.close.2.2 = writeDatasetSample) :=
  ⟨by decide,
    write_close_fails_before_open_or_encode writeDatasetSample (by decide)⟩

/-- C8: a close on a mode without `'w'` (in particular read-only `'r'`) is
a no-op: it succeeds, performs no file event, and leaves the proxy (and so
the wrapped graph) unchanged. -/
theorem read_close_is_noop (d : Nc4DatasetMimic)
    (h : d.fileMode.toList.contains 'w' = false) :
    d.close = (Except.ok (), [], d) := by
  have h' : 'w' ∉ d.fileMode.data := by simpa using h
  simp [Nc4DatasetMimic.close, h']

/-- A read-mode dataset mimic. -/
def readDatasetSample : Nc4DatasetMimic :=
  ⟨.mk "g" [] [] [] [], Option.none, PyVal.pystr "in.nc", "r"⟩

/-- Witness for C8 at a concrete read-mode dataset mimic. -/
theorem read_close_is_noop_witness :
    "r".toList.contains 'w' = false ∧
    readDatasetSample.close = (Except.ok (), [], readDatasetSample) :=
  ⟨by decide, read_close_is_noop readDatasetSample (by decide)⟩

/-- C9: during a write-mode `close()` no output file handle is ever
acquired (and none is released): the trace contains no open and no close
event, because evaluation fails before the scoped `with nc.Dataset(...)`
block is reached. -/
theorem write_close_never_acquires_handle (d : Nc4DatasetMimic)
    (h : d.fileMode.toList.contains 'w' = true) (pth m : String) :
    IOEvent.openFile pth m ∉ d.close.2.1 ∧ IOEvent.closeFile ∉ d.close.2.1 := by
  have h' : 'w' ∈ d.fileMode.data := by simpa using h
  rcases hfp : attributesLookup d.ncobj.attributes "file_path" with _ | v
  · constructor <;> simp [Nc4DatasetMimic.close, h', hfp]
  · rcases hfm : attributesLookup d.ncobj.attributes "file_mode" with _ | w
    · constructor <;> simp [Nc4DatasetMimic.close, h', hfp, hfm]
    · constructor <;> simp [Nc4DatasetMimic.close, h', hfp, hfm]

/-- A second write-mode dataset mimic, for the C9 witness. -/
def writeDatasetSample2 : Nc4DatasetMimic :=
  ⟨.mk "h" [] [] [] [], Option.none, PyVal.pystr "out2.nc", "w"⟩

/-- Witness for C9 at a concrete write-mode dataset mimic. -/
theorem write_close_never_acquires_handle_witness :
    "w".toList.contains 'w' = true ∧
    (IOEvent.openFile "out2.nc" "w" ∉ writeDatasetSample2.close.2.1 ∧
      IOEvent.closeFile ∉ writeDatasetSample2.close.2.1) :=
  ⟨by decide,
    write_close_never_acquires_handle writeDatasetSample2 (by decide)
      "out2.nc" "w"⟩

/-- C10: mimic equality compares exactly the wrapped components, ignoring
the parent back-reference and — on dataset mimics — the file path/mode
bookkeeping, and `__ne__` is the negation of `__eq__`. -/
theorem mimic_eq_wrapped_only_and_ne_negation {α : Type} [BEq α] (x y : α)
    (p q p' q' : Option NcGroup) (g1 g2 : NcGroup) (pp qq : Option NcGroup)
    (fp fq : PyVal) (m1 m2 : String) :
    (Nc4ComponentMimic.eqMimic ⟨x, p⟩ ⟨y, q⟩ = (x == y)) ∧
    (Nc4ComponentMimic.neMimic ⟨x, p⟩ ⟨y, q⟩ = !(x == y)) ∧
    (Nc4ComponentMimic.eqMimic ⟨x, p⟩ ⟨y, q⟩ =
      Nc4ComponentMimic.eqMimic ⟨x, p'⟩ ⟨y, q'⟩) ∧
    (Nc4DatasetMimic.eqMimic ⟨g1, pp, fp, m1⟩ ⟨g2, qq, fq, m2⟩ =
      NcGroup.beq g1 g2) ∧
    (Nc4DatasetMimic.neMimic ⟨g1, pp, fp, m1⟩ ⟨g2, qq, fq, m2⟩ =
      !(NcGroup.beq g1 g2)) :=
  ⟨rfl, rfl, rfl, rfl, rfl⟩
